import Mathlib

/-!
Verification development for the scheduling-and-synchronization core of the
SportsClub PWA repository.  The JavaScript sources are shallowly embedded:

* `src/utils/errorHandler.js` — error classifier (`ERROR_CODE_MAPPING`,
  `isRetryableError`, `createEnhancedError`);
* `src/services/appwrite.js` — `retryOperation` and `RealtimeManager`;
* `src/services/schedulingService.js` — `DateUtils.generateDateRange`,
  `validateSchedulingRequest`, `checkSchedulingConflicts`, `scheduleClasses`,
  `cancelClasses`.

Calendar dates are modelled as natural-number day indices (days since the Unix
epoch); the JavaScript code stores dates as `YYYY-MM-DD` strings parsed to UTC
midnight `Date` objects, so subtraction of two such dates is an exact multiple
of 86 400 000 ms and the day index determines the date uniquely.  `getDay()`
on a UTC-midnight date is `(dayIndex + 4) % 7` (1970-01-01 was a Thursday).
The remote document store is modelled as an explicit list of session documents
threaded through the operations; remote-call failures are injected through an
explicit oracle indexed by call number.
-/

namespace SportsClub

/-! ## Error classifier (`src/utils/errorHandler.js`) -/

/-- Raw error codes: `error?.code || error?.status || 'unknown'` is either an
HTTP-like number or a string tag. -/
inductive Code where
  | num (n : Nat)
  | str (s : String)
deriving DecidableEq, Repr

/-- `ErrorTypes` enumeration from `errorHandler.js`. -/
inductive ErrorKind where
  | NETWORK
  | AUTHENTICATION
  | AUTHORIZATION
  | PERMISSION
  | VALIDATION
  | NOT_FOUND
  | CONFLICT
  | RATE_LIMIT
  | SERVER
  | UNKNOWN
  | CONNECTION
  | TIMEOUT
deriving DecidableEq, Repr

/-- `ErrorSeverity` enumeration from `errorHandler.js`. -/
inductive Severity where
  | low
  | medium
  | high
  | critical
deriving DecidableEq, Repr

open ErrorKind Severity

/-- `ERROR_CODE_MAPPING` from `errorHandler.js`: maps a code to
`{type, severity}`; `none` for codes absent from the table. -/
def ERROR_CODE_MAPPING : Code → Option (ErrorKind × Severity)
  | .num 401 => some (AUTHENTICATION, medium)
  | .str "user_unauthorized" => some (AUTHENTICATION, medium)
  | .str "user_not_found" => some (AUTHENTICATION, high)
  | .str "session_expired" => some (AUTHENTICATION, low)
  | .num 403 => some (PERMISSION, medium)
  | .str "permission_denied" => some (PERMISSION, medium)
  | .str "insufficient_permissions" => some (AUTHORIZATION, medium)
  | .str "network_error" => some (NETWORK, high)
  | .str "connection_timeout" => some (TIMEOUT, medium)
  | .num 503 => some (NETWORK, high)
  | .num 502 => some (NETWORK, high)
  | .num 400 => some (VALIDATION, low)
  | .str "validation_failed" => some (VALIDATION, low)
  | .str "required_field_missing" => some (VALIDATION, low)
  | .num 404 => some (NOT_FOUND, low)
  | .num 409 => some (CONFLICT, medium)
  | .str "document_not_found" => some (NOT_FOUND, low)
  | .num 429 => some (RATE_LIMIT, medium)
  | .str "rate_limit_exceeded" => some (RATE_LIMIT, medium)
  | .num 500 => some (SERVER, critical)
  | .str "database_error" => some (SERVER, high)
  | _ => none

/-- The `{type, severity}` actually used by `createEnhancedError`: the table
entry, or `{UNKNOWN, MEDIUM}` when the code is not in the table. -/
def errorMapping (c : Code) : ErrorKind × Severity :=
  (ERROR_CODE_MAPPING c).getD (UNKNOWN, medium)

/-- The mapped kind of a code, as computed inside `createEnhancedError`. -/
def mappedKind (c : Code) : ErrorKind := (errorMapping c).1

/-- Whether the code is numeric (a `typeof errorCode === 'number'` check). -/
def Code.isNum : Code → Bool
  | .num _ => true
  | .str _ => false

/-- The numeric value of a code (`0` for string codes; only consulted when
`isNum` holds). -/
def Code.numVal : Code → Nat
  | .num n => n
  | .str _ => 0

/-- `isRetryableError(errorCode, errorType)` from `errorHandler.js`, with the
four checks in source order. -/
def isRetryableError (errorCode : Code) (errorType : ErrorKind) : Bool :=
  if errorType = NETWORK ∨ errorType = TIMEOUT then true
  else if errorCode.isNum ∧ 500 ≤ errorCode.numVal ∧ errorCode.numVal < 600 then true
  else if errorType = RATE_LIMIT then true
  else if errorCode ∈ [Code.str "service_unavailable", Code.str "connection_timeout",
                        Code.str "database_error"] then true
  else false

/-- The `retryable` flag that `createEnhancedError` stores on the enhanced
error object: `isRetryableError(errorCode, mapping.type)`. -/
def enhancedRetryable (c : Code) : Bool :=
  isRetryableError c (mappedKind c)

/-! ## Date-range expander (`DateUtils.generateDateRange`) -/

/-- `Date.prototype.getDay()` for a UTC-midnight date with day index `d`:
0 = Sunday … 6 = Saturday; day 0 (1970-01-01) was a Thursday (= 4). -/
def dayOfWeek (d : Nat) : Nat := (d + 4) % 7

/-- The body of `generateDateRange`'s `while (currentDate <= endDate)` loop,
with the remaining iteration count made explicit as fuel (the loop advances
`currentDate` one day per iteration, so it runs `end - current + 1` times). -/
def generateFrom (excludeDays : List Nat) : Nat → Nat → List Nat
  | 0, _ => []
  | fuel + 1, cur =>
    if excludeDays.contains (dayOfWeek cur) then
      generateFrom excludeDays fuel (cur + 1)
    else
      cur :: generateFrom excludeDays fuel (cur + 1)

/-- `DateUtils.generateDateRange(startDate, endDate, excludeDays = [])`:
every day from `startD` to `endD` inclusive whose weekday is not excluded.
When `startD > endD` the loop body never runs and the result is `[]`. -/
def generateDateRange (startD endD : Nat) (excludeDays : List Nat := []) : List Nat :=
  generateFrom excludeDays (endD + 1 - startD) startD

/-! ## Scheduling service (`src/services/schedulingService.js`) -/

/-- One entry of `SCHEDULING_CONFIG.BATCHES`. -/
structure BatchConfig where
  id : String
  name : String
  defaultTime : String
  color : String
  maxStudents : Nat
deriving DecidableEq, Repr

/-- `SCHEDULING_CONFIG.BATCHES`, keyed by the uppercase batch key. -/
def BATCHES : String → Option BatchConfig
  | "MORNING" => some ⟨"morning", "Morning Batch", "09:00", "orange", 15⟩
  | "EVENING" => some ⟨"evening", "Evening Batch", "18:00", "purple", 12⟩
  | "WEEKEND" => some ⟨"weekend", "Weekend Batch", "10:00", "blue", 20⟩
  | _ => none

/-- `batch.toUpperCase()` (character-wise ASCII upcasing). -/
def toUpperStr (s : String) : String := String.mk (s.data.map Char.toUpper)

/-- `SCHEDULING_CONFIG.BATCHES[batch.toUpperCase()]`. -/
def batchLookup (batch : String) : Option BatchConfig :=
  BATCHES (toUpperStr batch)

/-- `Object.keys(SCHEDULING_CONFIG.BATCHES).includes(batch.toUpperCase())`. -/
def isValidBatchId (batch : String) : Bool :=
  (batchLookup batch).isSome

/-- `batchConfig.name` for a batch id (validation guarantees the lookup
succeeds on every execution path quantified over below). -/
def batchNameOf (batch : String) : String :=
  ((batchLookup batch).map BatchConfig.name).getD ""

/-- `batchConfig.defaultTime`. -/
def batchTimeOf (batch : String) : String :=
  ((batchLookup batch).map BatchConfig.defaultTime).getD ""

/-- `batchConfig.maxStudents`. -/
def batchMaxOf (batch : String) : Nat :=
  ((batchLookup batch).map BatchConfig.maxStudents).getD 0

/-- `SCHEDULING_CONFIG.VALIDATION` constants. -/
def MAX_ADVANCE_DAYS : Nat := 90
def MIN_ADVANCE_HOURS : Nat := 2
def MAX_BULK_OPERATIONS : Nat := 50

def msPerHour : Nat := 3600000
def msPerDay : Nat := 86400000

/-- `Object.values(SCHEDULING_CONFIG.ACTIONS)`. -/
def ACTIONS : List String := ["schedule", "cancel", "reschedule"]

/-- A scheduling / cancellation request object.  `none` on a date or on
`excludeDays` models the field being absent from the request. -/
structure SchedulingRequest where
  startDate : Option Nat
  endDate : Option Nat
  batches : List String
  excludeDays : Option (List Nat)
  notes : String
  reason : String
  skipConflicts : Bool
  action : String
deriving DecidableEq, Repr

/-- `DateUtils.isValidSchedulingDate(date)` evaluated against an explicit
clock `now` (milliseconds); returns the failure reason, `none` when valid.
The request's day index `d` corresponds to the instant `d * msPerDay`. -/
def isValidSchedulingDate (now dateMs : Nat) : Option String :=
  if dateMs < now + MIN_ADVANCE_HOURS * msPerHour then
    some "Classes must be scheduled at least 2 hours in advance"
  else if dateMs > now + MAX_ADVANCE_DAYS * msPerDay then
    some "Classes cannot be scheduled more than 90 days in advance"
  else
    none

/-- `Math.ceil((endDate - startDate) / (1000*60*60*24))`: both dates are UTC
midnights, so the difference is an exact multiple of `msPerDay` and the
ceiling is the exact (possibly negative) day difference. -/
def daysDiff (s e : Nat) : Int := (e : Int) - (s : Int)

/-- The error list accumulated by `validateSchedulingRequest`, in push order. -/
def validationErrors (now : Nat) (req : SchedulingRequest) : List String :=
  (if req.startDate = none then ["Start date is required"] else []) ++
  (if req.endDate = none then ["End date is required"] else []) ++
  (if req.batches.isEmpty then ["At least one batch must be selected"] else []) ++
  (if req.action ∈ ACTIONS then [] else ["Valid action is required"]) ++
  (match req.startDate, req.endDate with
   | some s, some e =>
     (if s > e then ["Start date must be before end date"] else []) ++
     (match isValidSchedulingDate now (s * msPerDay) with
      | some reason => ["Start date: " ++ reason]
      | none => []) ++
     (match isValidSchedulingDate now (e * msPerDay) with
      | some reason => ["End date: " ++ reason]
      | none => []) ++
     (if daysDiff s e * req.batches.length > (MAX_BULK_OPERATIONS : Int) then
        ["Maximum 50 classes can be scheduled at once"]
      else [])
   | _, _ => []) ++
  (if (req.batches.filter (fun b => ! isValidBatchId b)).isEmpty then []
   else ["Invalid batches"])

/-- `validateSchedulingRequest(request)`: `{valid, errors}`. -/
structure ValidationResult where
  valid : Bool
  errors : List String
deriving DecidableEq, Repr

def validateSchedulingRequest (now : Nat) (req : SchedulingRequest) : ValidationResult :=
  { valid := (validationErrors now req).isEmpty, errors := validationErrors now req }

/-- A `classes`-collection document. -/
structure Session where
  id : Nat
  date : Nat
  batchName : String
  time : String
  status : String
  maxStudents : Nat
  scheduledBy : String
  notes : String
  cancelledBy : String
  cancellationReason : String
deriving DecidableEq, Repr

/-- The `listDocuments` filter used by both the conflict check and the cancel
loop: `date == d && batch_name == n && status == 'scheduled'`. -/
def isScheduledMatch (d : Nat) (n : String) (s : Session) : Bool :=
  s.date == d && s.batchName == n && s.status == "scheduled"

/-- One conflict entry `{date, batch, existingClass}`. -/
structure Conflict where
  date : Nat
  batchName : String
  existing : Session
deriving DecidableEq, Repr

/-- The conflict list produced by `checkSchedulingConflicts(dates, batches)`
over a store: one entry per (date, batch) pair with at least one matching
`scheduled` document, referencing the first match; dates outer, batches
inner.  The remote queries are modelled as pure reads of the store. -/
def conflictsFor (dates : List Nat) (batches : List String)
    (store : List Session) : List Conflict :=
  dates.flatMap fun d =>
    batches.filterMap fun b =>
      match store.filter (isScheduledMatch d (batchNameOf b)) with
      | [] => none
      | s :: _ => some ⟨d, batchNameOf b, s⟩

/-- The date-major, batch-minor work-item list (`for date … for batch …`). -/
def workItems (dates : List Nat) (batches : List String) : List (Nat × String) :=
  dates.flatMap fun d => batches.map fun b => (d, b)

/-- The class document built by the schedule loop for a (date, batch) pair. -/
def mkSession (d : Nat) (b : String) (user notes : String) : Session :=
  { id := 0, date := d, batchName := batchNameOf b, time := batchTimeOf b,
    status := "scheduled", maxStudents := batchMaxOf b, scheduledBy := user,
    notes := notes, cancelledBy := "", cancellationReason := "" }

/-- The schedule loop: for each work item, a retry-wrapped `createDocument`
whose overall success is decided by the oracle `createFails` (indexed by item
position); a failing item is caught, counted, and the loop continues.
Returns the created documents in loop order and the error count. -/
def runCreates (user notes : String) (createFails : Nat → Bool) :
    List (Nat × String) → Nat → List Session × Nat
  | [], _ => ([], 0)
  | (d, b) :: rest, idx =>
    let r := runCreates user notes createFails rest (idx + 1)
    if createFails idx then (r.1, r.2 + 1)
    else (mkSession d b user notes :: r.1, r.2)

/-- The envelope and observable effects of one `scheduleClasses` call. -/
structure SchedResult where
  success : Bool
  isValidationError : Bool
  scheduled : Nat
  errors : Nat
  created : List Session
  conflicts : List Conflict
  store : List Session
  remoteCalls : Nat
  createCalls : Nat
deriving Repr

/-- `scheduleClasses(request)`: validation, conflict gate, sequential create
loop, result classification.  `now` is the clock, `user` the identity from
`getCurrentUser`, `store` the remote collection, `createFails` the per-item
create-failure oracle (conflict queries are modelled as pure store reads). -/
def scheduleClasses (now : Nat) (user : String) (req : SchedulingRequest)
    (createFails : Nat → Bool) (store : List Session) : SchedResult :=
  let v := validateSchedulingRequest now req
  if !v.valid then
    { success := false, isValidationError := true, scheduled := 0, errors := 0,
      created := [], conflicts := [], store := store, remoteCalls := 0,
      createCalls := 0 }
  else
    match req.startDate, req.endDate with
    | some s, some e =>
      let excludeDays := req.excludeDays.getD [0]
      let dates := generateDateRange s e excludeDays
      let cs := if req.skipConflicts then [] else conflictsFor dates req.batches store
      let queryCalls := if req.skipConflicts then 0 else dates.length * req.batches.length
      if !cs.isEmpty then
        { success := false, isValidationError := true, scheduled := 0,
          errors := 0, created := [], conflicts := cs, store := store,
          remoteCalls := queryCalls, createCalls := 0 }
      else
        let items := workItems dates req.batches
        let cr := runCreates user req.notes createFails items 0
        { success := cr.2 == 0 || decide (0 < cr.1.length),
          isValidationError := false, scheduled := cr.1.length,
          errors := cr.2, created := cr.1, conflicts := [],
          store := store ++ cr.1,
          remoteCalls := queryCalls + items.length, createCalls := items.length }
    | _, _ =>
      -- unreachable: a valid request has both dates present
      { success := false, isValidationError := true, scheduled := 0,
        errors := 0, created := [], conflicts := [], store := store,
        remoteCalls := 0, createCalls := 0 }

/-- The cancelled version of a class document (`updateDocument` patch). -/
def cancelSession (user reason : String) (s : Session) : Session :=
  { s with status := "cancelled", cancelledBy := user,
           cancellationReason := reason }

/-- The inner `for (const classDoc of existingClasses.documents)` loop of one
cancel work item: each `updateDocument` is a remote call whose success is
decided by the oracle `fails` (indexed by a running remote-call counter); a
failing update throws out of the item, keeping the updates already applied.
Returns (#updates applied, next call index, new store, item succeeded?). -/
def cancelMatches (user reason : String) (fails : Nat → Bool) :
    List Session → Nat → List Session → Nat × Nat × List Session × Bool
  | [], idx, store => (0, idx, store, true)
  | m :: rest, idx, store =>
    if fails idx then (0, idx + 1, store, false)
    else
      let store' := store.map fun t => if t.id == m.id then cancelSession user reason t else t
      let r := cancelMatches user reason fails rest (idx + 1) store'
      (r.1 + 1, r.2.1, r.2.2.1, r.2.2.2)

/-- The cancel loop over work items: per item one `listDocuments` query (call
index consumed even on failure) followed by updates of every match; a failure
anywhere in the item is caught, counted once, and the loop continues.
Returns (#cancelled, #item errors, final store). -/
def runCancels (user reason : String) (fails : Nat → Bool) :
    List (Nat × String) → Nat → List Session → Nat × Nat × List Session
  | [], _, store => (0, 0, store)
  | (d, b) :: rest, idx, store =>
    if fails idx then
      let r := runCancels user reason fails rest (idx + 1) store
      (r.1, r.2.1 + 1, r.2.2)
    else
      let found := store.filter (isScheduledMatch d (batchNameOf b))
      let m := cancelMatches user reason fails found (idx + 1) store
      let r := runCancels user reason fails rest m.2.1 m.2.2.1
      (m.1 + r.1, (if m.2.2.2 then 0 else 1) + r.2.1, r.2.2)

/-- The date list `cancelClasses` iterates: `generateDateRange(start, end)`
with the `excludeDays` parameter left at its default `[]`. -/
def cancelDates (req : SchedulingRequest) : List Nat :=
  match req.startDate, req.endDate with
  | some s, some e => generateDateRange s e []
  | _, _ => []

/-- The envelope and observable effects of one `cancelClasses` call. -/
structure CancelResult where
  success : Bool
  isValidationError : Bool
  cancelled : Nat
  errors : Nat
  store : List Session
deriving Repr

/-- `cancelClasses(request)`: validates `{...request, action: 'cancel'}`,
expands the range with no weekday exclusions, cancels every matching
`scheduled` document, and always returns a success envelope afterwards
(`cancelled === 0` yields the "No matching classes found to cancel" success
message, not a failure). -/
def cancelClasses (now : Nat) (user : String) (req : SchedulingRequest)
    (fails : Nat → Bool) (store : List Session) : CancelResult :=
  let v := validateSchedulingRequest now { req with action := "cancel" }
  if !v.valid then
    { success := false, isValidationError := true, cancelled := 0, errors := 0,
      store := store }
  else
    let r := runCancels user req.reason fails
      (workItems (cancelDates req) req.batches) 0 store
    { success := true, isValidationError := false, cancelled := r.1,
      errors := r.2.1, store := r.2.2 }

/-! ## Retry wrapper and error objects (`appwrite.js`, `errorHandler.js`) -/

/-- The fields of the enhanced error object built by `createEnhancedError`
that the retry claims depend on.  `retryCount` and `finalAttempt` mirror the
`context` tags attached by the callers (absent tags are `0` / `false`). -/
structure EnhancedError where
  success : Bool
  type : ErrorKind
  severity : Severity
  code : Code
  retryable : Bool
  retryCount : Nat
  finalAttempt : Bool
deriving DecidableEq, Repr

/-- `createEnhancedError(error, operation, context)` restricted to the fields
above. -/
def createEnhancedError (c : Code) (retryCount : Nat) (finalAttempt : Bool) :
    EnhancedError :=
  { success := false, type := mappedKind c, severity := (errorMapping c).2,
    code := c, retryable := enhancedRetryable c, retryCount := retryCount,
    finalAttempt := finalAttempt }

/-- `handleError(error, operation, options)`: the code-based routing.  The
auth / permission / validation handlers rebuild the context from scratch
(dropping the caller's `retryCount` / `finalAttempt` tags), the network
handler keeps only `retryCount`; the default path keeps both. -/
def handleError (c : Code) (retryCount : Nat) (finalAttempt : Bool) :
    EnhancedError :=
  if c = .num 401 then createEnhancedError c 0 false
  else if c = .num 403 then createEnhancedError c 0 false
  else if c = .num 400 then createEnhancedError c 0 false
  else if c = .num 503 then createEnhancedError c retryCount false
  else createEnhancedError c retryCount finalAttempt

/-- `min(baseDelay * Math.pow(2, attempt - 1), 10000)`. -/
def retryDelay (baseDelay attempt : Nat) : Nat :=
  min (baseDelay * 2 ^ (attempt - 1)) 10000

/-- Observable trace of one `retryOperation` call: the outcome, the number of
times `operation()` was invoked, and the backoff sleeps in order. -/
structure RetryTrace (α : Type) where
  result : Except EnhancedError α
  calls : Nat
  delays : List Nat
deriving Repr

/-- The `for (let attempt = 0; attempt <= maxRetries; attempt++)` loop of
`retryOperation`, with the remaining iteration count as fuel.  The operation
is modelled as a function of the attempt number.  The `0` fuel case is the
statement after the loop (line 359 of `appwrite.js`), which re-throws the
last error with `{retryCount: maxRetries, finalAttempt: true}`. -/
def retryFrom (op : Nat → Except Code α) (maxRetries baseDelay : Nat) :
    Nat → Nat → Code → RetryTrace α
  | 0, _, lastErr =>
    { result := .error (handleError lastErr maxRetries true), calls := 0,
      delays := [] }
  | remaining + 1, attempt, _ =>
    let ds := if attempt > 0 then [retryDelay baseDelay attempt] else []
    match op attempt with
    | .ok a => { result := .ok a, calls := 1, delays := ds }
    | .error c =>
      let enh := handleError c attempt false
      if enh.retryable = false then
        { result := .error enh, calls := 1, delays := ds }
      else if attempt = maxRetries then
        { result := .error enh, calls := 1, delays := ds }
      else
        let rest := retryFrom op maxRetries baseDelay remaining (attempt + 1) c
        { result := rest.result, calls := rest.calls + 1,
          delays := ds ++ rest.delays }
termination_by fuel => fuel

/-- `retryOperation(operation, operationName, maxRetries = 3, baseDelay = 1000)`. -/
def retryOperation (op : Nat → Except Code α) (maxRetries : Nat := 3)
    (baseDelay : Nat := 1000) : RetryTrace α :=
  retryFrom op maxRetries baseDelay (maxRetries + 1) 0 (.str "unknown")

/-! ## Real-time subscription multiplexer (`RealtimeManager`) -/

/-- `RealtimeManager` state: `subscriptions` holds the collection names with
an underlying channel handle, `listeners` the per-collection callback counts.
JavaScript `Map` keys are unique; deletion is modelled by filtering. -/
structure RealtimeManager where
  subscriptions : List String
  listeners : List (String × Nat)
deriving DecidableEq, Repr

/-- `getStatus()`. -/
structure RTStatus where
  activeSubscriptions : List String
  subscriptionCount : Nat
  listenersCount : Nat
deriving DecidableEq, Repr

def getStatus (m : RealtimeManager) : RTStatus :=
  { activeSubscriptions := m.subscriptions,
    subscriptionCount := m.subscriptions.length,
    listenersCount := (m.listeners.map Prod.snd).sum }

/-- `unsubscribe(collectionName)`: tears down the handle and the callbacks if
a subscription exists, otherwise does nothing (and never throws). -/
def unsubscribe (m : RealtimeManager) (name : String) : RealtimeManager :=
  if m.subscriptions.contains name then
    { subscriptions := m.subscriptions.filter (· ≠ name),
      listeners := m.listeners.filter (·.1 ≠ name) }
  else m

/-- `unsubscribeAll()`: `unsubscribe` on every currently subscribed
collection (the live-iterator walk over `this.subscriptions.keys()` visits
exactly the keys present when the call starts). -/
def unsubscribeAll (m : RealtimeManager) : RealtimeManager :=
  m.subscriptions.foldl unsubscribe m

/-! ## Concrete requests and stores used by witnesses and counterexamples -/

/-- Request used by the C1 counterexample: 51 calendar days, one batch. -/
def claim1req : SchedulingRequest :=
  { startDate := some 1, endDate := some 51, batches := ["morning"],
    excludeDays := some [], notes := "", reason := "", skipConflicts := true,
    action := "schedule" }

/-- Request used by the C1 witness: 60 day range, one batch, rejected. -/
def claim1reqW : SchedulingRequest :=
  { startDate := some 1, endDate := some 60, batches := ["morning"],
    excludeDays := none, notes := "", reason := "", skipConflicts := false,
    action := "schedule" }

/-- Request used by the C3 counterexample: a one-day range whose single day
is excluded, so the expansion is empty. -/
def claim3req : SchedulingRequest :=
  { startDate := some 3, endDate := some 3, batches := ["morning"],
    excludeDays := some [0], notes := "", reason := "", skipConflicts := false,
    action := "schedule" }

/-- Request used by the C3 witness: one item whose create fails. -/
def claim3reqW : SchedulingRequest :=
  { startDate := some 1, endDate := some 1, batches := ["morning"],
    excludeDays := none, notes := "", reason := "", skipConflicts := true,
    action := "schedule" }

/-- Request and one-session store used by the C5 witness. -/
def claim5req : SchedulingRequest :=
  { startDate := some 1, endDate := some 1, batches := ["morning"],
    excludeDays := none, notes := "", reason := "", skipConflicts := false,
    action := "schedule" }

def claim5store : List Session :=
  [{ id := 7, date := 1, batchName := "Morning Batch", time := "09:00",
     status := "scheduled", maxStudents := 15, scheduledBy := "i",
     notes := "", cancelledBy := "", cancellationReason := "" }]

/-- Requests used by the C9 witness: one omitting `excludeDays` over a
Friday-Saturday range, one passing `excludeDays = []` over a range that
contains a Sunday (day 3). -/
def claim9req : SchedulingRequest :=
  { startDate := some 1, endDate := some 2, batches := ["morning"],
    excludeDays := none, notes := "", reason := "", skipConflicts := true,
    action := "schedule" }

def claim9reqE : SchedulingRequest :=
  { startDate := some 3, endDate := some 4, batches := ["morning"],
    excludeDays := some [], notes := "", reason := "", skipConflicts := true,
    action := "schedule" }

/-- Request and store used by the C7 witness: the store's only session is
already cancelled, so nothing matches. -/
def claim7req : SchedulingRequest :=
  { startDate := some 1, endDate := some 2, batches := ["morning"],
    excludeDays := none, notes := "", reason := "closed", skipConflicts := false,
    action := "schedule" }

def claim7store : List Session :=
  [{ id := 4, date := 1, batchName := "Morning Batch", time := "09:00",
     status := "cancelled", maxStudents := 15, scheduledBy := "i",
     notes := "", cancelledBy := "i", cancellationReason := "rain" }]

def claim10req : SchedulingRequest :=
  { startDate := some 4, endDate := some 6, batches := ["morning"],
    excludeDays := none, notes := "", reason := "", skipConflicts := false,
    action := "cancel" }

/-! ## Shared lemmas -/

theorem generateFrom_eq_filter_range (excl : List Nat) :
    ∀ fuel cur, generateFrom excl fuel cur =
      (List.range' cur fuel).filter (fun d => ! excl.contains (dayOfWeek d)) := by
  intro fuel
  induction fuel with
  | zero => intro cur; simp [generateFrom]
  | succ n ih =>
    intro cur
    rw [List.range'_succ, List.filter_cons]
    by_cases h : excl.contains (dayOfWeek cur)
    · simp [generateFrom, h, ih]
    · simp [generateFrom, h, ih]

theorem generateDateRange_eq_filter (startD endD : Nat) (excl : List Nat) :
    generateDateRange startD endD excl =
      (List.range' startD (endD + 1 - startD)).filter
        (fun d => ! excl.contains (dayOfWeek d)) :=
  generateFrom_eq_filter_range excl (endD + 1 - startD) startD

theorem mem_generateDateRange (startD endD : Nat) (excl : List Nat) (d : Nat) :
    d ∈ generateDateRange startD endD excl ↔
      startD ≤ d ∧ d ≤ endD ∧ ¬ excl.contains (dayOfWeek d) := by
  rw [generateDateRange_eq_filter]
  simp only [List.mem_filter, List.mem_range'_1]
  constructor
  · rintro ⟨⟨hle, hlt⟩, hdec⟩
    refine ⟨hle, by omega, by simpa using hdec⟩
  · rintro ⟨h1, h2, h3⟩
    exact ⟨⟨h1, by omega⟩, by simpa using h3⟩

theorem generateDateRange_sorted (startD endD : Nat) (excl : List Nat) :
    (generateDateRange startD endD excl).Sorted (· < ·) := by
  rw [generateDateRange_eq_filter]
  exact List.Sorted.filter _ (List.pairwise_lt_range' _ _ 1 (by omega))

theorem mem_workItems (dates : List Nat) (batches : List String) (d : Nat) (b : String) :
    (d, b) ∈ workItems dates batches ↔ d ∈ dates ∧ b ∈ batches := by
  simp only [workItems, List.mem_flatMap, List.mem_map, Prod.mk.injEq]
  constructor
  · rintro ⟨x, hx, y, hy, rfl, rfl⟩
    exact ⟨hx, hy⟩
  · rintro ⟨hd, hb⟩
    exact ⟨d, hd, b, hb, rfl, rfl⟩

/-! ## Claims -/

/-- C4: for every `startDate <= endDate` and every set of excluded weekdays,
`generateDateRange(startDate, endDate, excludeDays)` returns exactly the
calendar dates in the inclusive interval whose weekday (0=Sunday..6=Saturday)
is not excluded, in ascending order, with no duplicates. -/
theorem claim4_expansion_correct (startD endD : Nat) (excl : List Nat)
    (_hle : startD ≤ endD) :
    (∀ d, d ∈ generateDateRange startD endD excl ↔
        startD ≤ d ∧ d ≤ endD ∧ dayOfWeek d ∉ excl) ∧
    (generateDateRange startD endD excl).Sorted (· < ·) ∧
    (generateDateRange startD endD excl).Nodup := by
  refine ⟨fun d => ?_, generateDateRange_sorted _ _ _,
    (generateDateRange_sorted _ _ _).nodup⟩
  rw [mem_generateDateRange]
  simp

/-- Witness for C4 at the spec's own example week (2024-12-16 = day 20073,
a Monday, through 2024-12-22, excluding Sunday and Saturday). -/
theorem claim4_witness :
    (20073 ≤ 20079 ∧
      (generateDateRange 20073 20079 [0, 6]).Sorted (· < ·)) ∧
    (20075 ∈ generateDateRange 20073 20079 [0, 6] ↔
      20073 ≤ 20075 ∧ 20075 ≤ 20079 ∧ dayOfWeek 20075 ∉ [0, 6]) ∧
    generateDateRange 20073 20079 [0, 6] = [20073, 20074, 20075, 20076, 20077] := by
  have h := claim4_expansion_correct 20073 20079 [0, 6] (by decide)
  exact ⟨⟨by decide, h.2.1⟩, h.1 20075, by decide⟩

/-- C6: an error is classified retryable exactly when its mapped kind is
`NETWORK` or `TIMEOUT`, or its code is a number in `[500, 600)`, or its
mapped kind is `RATE_LIMIT`, or its code is one of the three allow-listed
strings; every other error gets `retryable = false`. -/
theorem claim6_retryable_iff (c : Code) :
    enhancedRetryable c = true ↔
      (mappedKind c = NETWORK ∨ mappedKind c = TIMEOUT) ∨
      (c.isNum = true ∧ 500 ≤ c.numVal ∧ c.numVal < 600) ∨
      mappedKind c = RATE_LIMIT ∨
      (c = .str "service_unavailable" ∨ c = .str "connection_timeout" ∨
        c = .str "database_error") := by
  unfold enhancedRetryable isRetryableError
  split_ifs with h1 h2 h3 h4
  · simpa using Or.inl h1
  · simp only [true_iff]
    exact Or.inr (Or.inl (by simpa using h2))
  · simp only [true_iff]
    exact Or.inr (Or.inr (Or.inl h3))
  · simp only [true_iff]
    refine Or.inr (Or.inr (Or.inr ?_))
    simpa using h4
  · simp only [Bool.false_eq_true, false_iff]
    rintro (h | h | h | h)
    · exact h1 h
    · exact h2 (by simpa using h)
    · exact h3 h
    · exact h4 (by simpa using h)

theorem foldl_unsubscribe_covering :
    ∀ (keys : List String) (m : RealtimeManager),
      (∀ k ∈ m.subscriptions, k ∈ keys) →
      (keys.foldl unsubscribe m).subscriptions = [] := by
  intro keys
  induction keys with
  | nil =>
    intro m h
    have hnil : m.subscriptions = [] :=
      List.eq_nil_iff_forall_not_mem.2 fun x hx => by simpa using h x hx
    simp [hnil]
  | cons hd tl ih =>
    intro m h
    simp only [List.foldl_cons]
    apply ih
    intro k hk
    unfold unsubscribe at hk
    by_cases hc : m.subscriptions.contains hd
    · rw [if_pos hc] at hk
      simp only [List.mem_filter, decide_eq_true_eq] at hk
      rcases List.mem_cons.1 (h k hk.1) with heq | htl
      · exact absurd heq hk.2
      · exact htl
    · rw [if_neg hc] at hk
      rcases List.mem_cons.1 (h k hk) with heq | htl
      · exact absurd (List.elem_iff.2 (heq ▸ hk)) (by simpa using hc)
      · exact htl

theorem unsubscribeAll_subscriptions (m : RealtimeManager) :
    (unsubscribeAll m).subscriptions = [] :=
  foldl_unsubscribe_covering m.subscriptions m (fun _ hk => hk)

/-- C8: `unsubscribeAll()` is idempotent, leaves `subscriptionCount = 0`, and
`unsubscribe(name)` on a collection with no subscription is a no-op (the
model is total, so no call throws). -/
theorem claim8_idempotent_unsubscribe (m : RealtimeManager) :
    unsubscribeAll (unsubscribeAll m) = unsubscribeAll m ∧
    (getStatus (unsubscribeAll m)).subscriptionCount = 0 ∧
    (getStatus (unsubscribeAll (unsubscribeAll m))).subscriptionCount = 0 ∧
    ∀ name, m.subscriptions.contains name = false → unsubscribe m name = m := by
  have h0 := unsubscribeAll_subscriptions m
  have hfix : unsubscribeAll (unsubscribeAll m) = unsubscribeAll m := by
    unfold unsubscribeAll
    rw [show (m.subscriptions.foldl unsubscribe m).subscriptions = [] from h0]
    simp
  refine ⟨hfix, by simp [getStatus, h0], ?_, ?_⟩
  · rw [hfix]; simp [getStatus, h0]
  · intro name hname
    unfold unsubscribe
    rw [if_neg fun hcon => by rw [hname] at hcon; exact absurd hcon (by decide)]

/-- Witness for C8 at a concrete manager state with one subscription. -/
theorem claim8_witness :
    unsubscribeAll (unsubscribeAll ⟨["classes"], [("classes", 2)]⟩) =
      unsubscribeAll ⟨["classes"], [("classes", 2)]⟩ ∧
    (getStatus (unsubscribeAll ⟨["classes"], [("classes", 2)]⟩)).subscriptionCount = 0 ∧
    unsubscribe ⟨["classes"], [("classes", 2)]⟩ "payments" =
      (⟨["classes"], [("classes", 2)]⟩ : RealtimeManager) := by
  have h := claim8_idempotent_unsubscribe ⟨["classes"], [("classes", 2)]⟩
  exact ⟨h.1, h.2.1, h.2.2.2 "payments" (by decide)⟩

theorem handleError_of_retryable {c : Code} (h : enhancedRetryable c = true)
    (n : Nat) : handleError c n false = createEnhancedError c n false := by
  unfold handleError
  split_ifs with h1 h2 h3 h4
  · subst h1; exact absurd h (by decide)
  · subst h2; exact absurd h (by decide)
  · subst h3; exact absurd h (by decide)
  · rfl
  · rfl

theorem retryDelay_le_cap (b k : Nat) : retryDelay b k ≤ 10000 :=
  Nat.min_le_right _ _

theorem retryDelay_mono (b : Nat) {i j : Nat} (h : i ≤ j) :
    retryDelay b i ≤ retryDelay b j :=
  min_le_min
    (Nat.mul_le_mul_left _ (Nat.pow_le_pow_right (by decide) (by omega)))
    (le_refl _)

theorem retryFrom_always_retryable {α : Type} (op : Nat → Except Code α)
    (maxR base : Nat)
    (hop : ∀ k, ∃ c, op k = .error c ∧ enhancedRetryable c = true) :
    ∀ r k c0, 1 ≤ r → 1 ≤ k → k + r = maxR + 1 →
      (retryFrom op maxR base r k c0).calls = r ∧
      (retryFrom op maxR base r k c0).delays =
        (List.range' k r).map (retryDelay base) ∧
      ∃ err, (retryFrom op maxR base r k c0).result = .error err ∧
        err.retryable = true ∧ err.retryCount = maxR ∧
        err.finalAttempt = false := by
  intro r
  induction r with
  | zero => intro k c0 h1; omega
  | succ r ih =>
    intro k c0 _ hk hsum
    obtain ⟨c, hc, hret⟩ := hop k
    have hHE := handleError_of_retryable hret k
    have hkpos : 0 < k := hk
    rcases Nat.eq_zero_or_pos r with hr0 | hrpos
    · subst hr0
      have hkmax : k = maxR := by omega
      simp only [retryFrom, hc, hkpos, if_true, gt_iff_lt, hHE]
      rw [if_neg (by simp [createEnhancedError, hret]), if_pos hkmax]
      refine ⟨rfl, by simp [List.range'], ?_⟩
      exact ⟨createEnhancedError c k false, rfl, by simp [createEnhancedError, hret],
        by simp [createEnhancedError, hkmax], rfl⟩
    · have hkne : k ≠ maxR := by omega
      have hrec := ih (k + 1) c (by omega) (by omega) (by omega)
      simp only [retryFrom, hc, hkpos, if_true, gt_iff_lt, hHE]
      rw [if_neg (by simp [createEnhancedError, hret]), if_neg hkne]
      refine ⟨by simp [hrec.1], ?_, hrec.2.2⟩
      rw [List.range'_succ, List.map_cons]
      simp [hrec.2.1]

/-- C2 (the part the code satisfies, and the divergence): an operation that
fails with a retryable classified error on every attempt is invoked exactly
`maxRetries + 1` times, with sleeps `min(baseDelay * 2^(attempt-1), 10000)`
before retries 1..maxRetries — a non-decreasing sequence capped at 10000 ms —
and the final failure is the classified error of the last in-loop attempt,
which carries `retryCount = maxRetries` and NO `finalAttempt = true` tag: the
statement after the loop that would attach `finalAttempt: true` (line 359 of
`appwrite.js`) is unreachable. -/
theorem claim2_retry_trace {α : Type} (op : Nat → Except Code α)
    (maxRetries baseDelay : Nat)
    (hop : ∀ k, ∃ c, op k = .error c ∧ enhancedRetryable c = true) :
    (retryOperation op maxRetries baseDelay).calls = maxRetries + 1 ∧
    (retryOperation op maxRetries baseDelay).delays =
      (List.range' 1 maxRetries).map (retryDelay baseDelay) ∧
    (retryOperation op maxRetries baseDelay).delays.Pairwise (· ≤ ·) ∧
    (∀ x ∈ (retryOperation op maxRetries baseDelay).delays, x ≤ 10000) ∧
    ∃ err, (retryOperation op maxRetries baseDelay).result = .error err ∧
      err.retryable = true ∧ err.retryCount = maxRetries ∧
      err.finalAttempt = false := by
  obtain ⟨c, hc, hret⟩ := hop 0
  have hHE := handleError_of_retryable hret 0
  have key : (retryOperation op maxRetries baseDelay).calls = maxRetries + 1 ∧
      (retryOperation op maxRetries baseDelay).delays =
        (List.range' 1 maxRetries).map (retryDelay baseDelay) ∧
      ∃ err, (retryOperation op maxRetries baseDelay).result = .error err ∧
        err.retryable = true ∧ err.retryCount = maxRetries ∧
        err.finalAttempt = false := by
    unfold retryOperation
    rcases Nat.eq_zero_or_pos maxRetries with h0 | hpos
    · subst h0
      simp only [retryFrom, hc, hHE]
      rw [if_neg (by simp [createEnhancedError, hret])]
      exact ⟨by simp, by simp, createEnhancedError c 0 false, by simp,
        by simp [createEnhancedError, hret], rfl, rfl⟩
    · have hrec := retryFrom_always_retryable op maxRetries baseDelay hop
        maxRetries 1 c hpos (le_refl 1) (by omega)
      simp only [retryFrom, hc, hHE]
      rw [if_neg (by simp [createEnhancedError, hret]),
        if_neg (by omega : (0 : Nat) ≠ maxRetries)]
      exact ⟨by simp [hrec.1], by simp [hrec.2.1], hrec.2.2⟩
  refine ⟨key.1, key.2.1, ?_, ?_, key.2.2⟩
  · rw [key.2.1]
    exact (List.pairwise_lt_range' 1 maxRetries 1 (by omega)).map _
      (fun a b hab => retryDelay_mono baseDelay (le_of_lt hab))
  · rw [key.2.1]
    intro x hx
    obtain ⟨a, _, rfl⟩ := List.mem_map.1 hx
    exact retryDelay_le_cap baseDelay a

/-- Witness for C2 at a concrete always-failing retryable operation
(`network_error`, maxRetries = 3, baseDelay = 1000). -/
theorem claim2_witness :
    (∀ k : Nat, ∃ c, (fun _ : Nat => (Except.error (Code.str "network_error") : Except Code Unit)) k = .error c ∧
      enhancedRetryable c = true) ∧
    (retryOperation (fun _ : Nat => (Except.error (Code.str "network_error") : Except Code Unit)) 3 1000).calls = 4 ∧
    (retryOperation (fun _ : Nat => (Except.error (Code.str "network_error") : Except Code Unit)) 3 1000).delays =
      (List.range' 1 3).map (retryDelay 1000) ∧
    ∃ err, (retryOperation (fun _ : Nat => (Except.error (Code.str "network_error") : Except Code Unit)) 3 1000).result = .error err ∧
      err.retryable = true ∧ err.retryCount = 3 ∧ err.finalAttempt = false := by
  have hop : ∀ k : Nat, ∃ c, (fun _ : Nat => (Except.error (Code.str "network_error") : Except Code Unit)) k = .error c ∧
      enhancedRetryable c = true :=
    fun _ => ⟨Code.str "network_error", rfl, by decide⟩
  have h := claim2_retry_trace (fun _ : Nat => (Except.error (Code.str "network_error") : Except Code Unit)) 3 1000 hop
  exact ⟨hop, h.1, h.2.1, h.2.2.2.2⟩

theorem batches_isEmpty_false {l : List String} (h : l ≠ []) :
    l.isEmpty = false := by
  cases l with
  | nil => exact absurd rfl h
  | cons a t => rfl

theorem validationErrors_of_checks (now : Nat) (req : SchedulingRequest)
    (s e : Nat)
    (hs : req.startDate = some s) (he : req.endDate = some e)
    (hse : s ≤ e)
    (hvs : isValidSchedulingDate now (s * msPerDay) = none)
    (hve : isValidSchedulingDate now (e * msPerDay) = none)
    (hb : req.batches ≠ [])
    (hvb : ∀ b ∈ req.batches, isValidBatchId b = true)
    (ha : req.action ∈ ACTIONS) :
    validationErrors now req =
      if (MAX_BULK_OPERATIONS : Int) < daysDiff s e * req.batches.length then
        ["Maximum 50 classes can be scheduled at once"]
      else [] := by
  unfold validationErrors
  rw [hs, he]
  have hfilter : req.batches.filter (fun b => ! isValidBatchId b) = [] :=
    List.filter_eq_nil_iff.2 fun b hbm => by simp [hvb b hbm]
  have hnotgt : ¬ s > e := by omega
  simp [batches_isEmpty_false hb, ha, hnotgt, hvs, hve, hfilter]

/-- C1, amended: the pre-remote-call size check performed by
`validateSchedulingRequest` rejects exactly the requests whose
day-difference `endDate - startDate` (in whole days, not counting the start
day and ignoring `excludeDays`) times the number of batches exceeds
`MAX_BULK_OPERATIONS` = 50; this is not the expanded work-item count.  When
validation rejects, `scheduleClasses` returns before issuing any remote call
(zero queries, zero creates, store untouched). -/
theorem claim1_size_check (now : Nat) (user : String) (req : SchedulingRequest)
    (fails : Nat → Bool) (store : List Session) (s e : Nat)
    (hs : req.startDate = some s) (he : req.endDate = some e)
    (hse : s ≤ e)
    (hvs : isValidSchedulingDate now (s * msPerDay) = none)
    (hve : isValidSchedulingDate now (e * msPerDay) = none)
    (hb : req.batches ≠ [])
    (hvb : ∀ b ∈ req.batches, isValidBatchId b = true)
    (ha : req.action ∈ ACTIONS) :
    ((validateSchedulingRequest now req).valid = false ↔
      (MAX_BULK_OPERATIONS : Int) < daysDiff s e * req.batches.length) ∧
    ((validateSchedulingRequest now req).valid = false →
      (scheduleClasses now user req fails store).remoteCalls = 0 ∧
      (scheduleClasses now user req fails store).createCalls = 0 ∧
      (scheduleClasses now user req fails store).store = store ∧
      (scheduleClasses now user req fails store).success = false) := by
  have herr := validationErrors_of_checks now req s e hs he hse hvs hve hb hvb ha
  constructor
  · unfold validateSchedulingRequest
    rw [herr]
    by_cases hgt : (MAX_BULK_OPERATIONS : Int) < daysDiff s e * req.batches.length
    · simp [hgt]
    · simp [hgt]
  · intro hinvalid
    have : (!(validateSchedulingRequest now req).valid) = true := by
      rw [hinvalid]; rfl
    simp [scheduleClasses, this]

/-- C1 counterexample: this request expands to 51 work items (> 50), yet
validation accepts it (the size check uses the day difference 50) and the
call goes on to issue 51 remote create calls. -/
theorem claim1_counterexample :
    MAX_BULK_OPERATIONS <
      (generateDateRange 1 51 []).length * claim1req.batches.length ∧
    (validateSchedulingRequest 0 claim1req).valid = true ∧
    (scheduleClasses 0 "system" claim1req (fun _ => false) []).createCalls = 51 := by
  refine ⟨by decide, by decide, by decide⟩

/-- Witness for C1 (amended) at the 60-day request. -/
theorem claim1_witness :
    ((validateSchedulingRequest 0 claim1reqW).valid = false ↔
      (MAX_BULK_OPERATIONS : Int) < daysDiff 1 60 * claim1reqW.batches.length) ∧
    ((validateSchedulingRequest 0 claim1reqW).valid = false →
      (scheduleClasses 0 "system" claim1reqW (fun _ => false) []).remoteCalls = 0 ∧
      (scheduleClasses 0 "system" claim1reqW (fun _ => false) []).createCalls = 0 ∧
      (scheduleClasses 0 "system" claim1reqW (fun _ => false) []).store = [] ∧
      (scheduleClasses 0 "system" claim1reqW (fun _ => false) []).success = false) :=
  claim1_size_check 0 "system" claim1reqW (fun _ => false) [] 1 60 rfl rfl
    (by decide) (by decide) (by decide) (by decide)
    (fun b hb => by fin_cases hb; decide) (by decide)

/-- C3, amended: once validation and the conflict gate pass, the envelope is
classified from the per-item outcomes — zero failures gives success, at
least one creation gives success (with the failure count reported in
`errors`), and zero creations WITH at least one failure gives a failure
envelope.  (The unamended claim fails when the expansion is empty: zero
items means zero successes yet a success envelope — see the
counterexample.) -/
theorem claim3_result_classes (now : Nat) (user : String)
    (req : SchedulingRequest) (fails : Nat → Bool) (store : List Session)
    (s e : Nat)
    (hval : (validateSchedulingRequest now req).valid = true)
    (hs : req.startDate = some s) (he : req.endDate = some e)
    (hgate : req.skipConflicts = true ∨
      conflictsFor (generateDateRange s e (req.excludeDays.getD [0]))
        req.batches store = []) :
    ((scheduleClasses now user req fails store).errors = 0 →
      (scheduleClasses now user req fails store).success = true) ∧
    (0 < (scheduleClasses now user req fails store).scheduled →
      (scheduleClasses now user req fails store).success = true) ∧
    ((scheduleClasses now user req fails store).scheduled = 0 →
      0 < (scheduleClasses now user req fails store).errors →
      (scheduleClasses now user req fails store).success = false) := by
  have hvalid : (!(validateSchedulingRequest now req).valid) = false := by
    rw [hval]; rfl
  have hcs : (if req.skipConflicts then []
      else conflictsFor (generateDateRange s e (req.excludeDays.getD [0]))
        req.batches store) = [] := by
    rcases hgate with h | h
    · simp [h]
    · by_cases hsk : req.skipConflicts
      · simp [hsk]
      · simp [hsk, h]
  simp only [scheduleClasses, hvalid, Bool.false_eq_true, if_false, hs, he,
    hcs, List.isEmpty_nil, Bool.not_false, if_true, Bool.not_true,
    Bool.false_eq_true]
  constructor
  · intro h
    simp only [h]
    simp
  constructor
  · intro h
    simp only [Bool.or_eq_true, decide_eq_true_eq]
    exact Or.inr h
  · intro h0 herr
    simp only [Bool.or_eq_true, decide_eq_true_eq, Bool.or_eq_false_iff]
    constructor
    · simp only [beq_eq_false_iff_ne, ne_eq]
      omega
    · simp [h0]

/-- C3 counterexample: a call that passes validation and conflict checking,
in which zero items succeed (there are zero items), yet the envelope is a
success — refuting "a call in which no item succeeds returns a failure
envelope". -/
theorem claim3_counterexample :
    (validateSchedulingRequest 0 claim3req).valid = true ∧
    (scheduleClasses 0 "system" claim3req (fun _ => true) []).scheduled = 0 ∧
    (scheduleClasses 0 "system" claim3req (fun _ => true) []).errors = 0 ∧
    (scheduleClasses 0 "system" claim3req (fun _ => true) []).success = true := by
  refine ⟨by decide, by decide, by decide, by decide⟩

/-- Witness for C3 (amended) at a one-item request whose create fails. -/
theorem claim3_witness :
    ((scheduleClasses 0 "system" claim3reqW (fun _ => true) []).errors = 0 →
      (scheduleClasses 0 "system" claim3reqW (fun _ => true) []).success = true) ∧
    (0 < (scheduleClasses 0 "system" claim3reqW (fun _ => true) []).scheduled →
      (scheduleClasses 0 "system" claim3reqW (fun _ => true) []).success = true) ∧
    ((scheduleClasses 0 "system" claim3reqW (fun _ => true) []).scheduled = 0 →
      0 < (scheduleClasses 0 "system" claim3reqW (fun _ => true) []).errors →
      (scheduleClasses 0 "system" claim3reqW (fun _ => true) []).success = false) :=
  claim3_result_classes 0 "system" claim3reqW (fun _ => true) [] 1 1
    (by decide) rfl rfl (Or.inl rfl)

/-- C5: with `skipConflicts = false` and at least one detected conflict,
`scheduleClasses` returns a validation-error envelope listing the conflicts
and performs no create: the store is unchanged and zero create calls are
issued. -/
theorem claim5_conflicts_block (now : Nat) (user : String)
    (req : SchedulingRequest) (fails : Nat → Bool) (store : List Session)
    (s e : Nat)
    (hval : (validateSchedulingRequest now req).valid = true)
    (hs : req.startDate = some s) (he : req.endDate = some e)
    (hskip : req.skipConflicts = false)
    (hconf : conflictsFor (generateDateRange s e (req.excludeDays.getD [0]))
      req.batches store ≠ []) :
    (scheduleClasses now user req fails store).success = false ∧
    (scheduleClasses now user req fails store).isValidationError = true ∧
    (scheduleClasses now user req fails store).conflicts =
      conflictsFor (generateDateRange s e (req.excludeDays.getD [0]))
        req.batches store ∧
    (scheduleClasses now user req fails store).store = store ∧
    (scheduleClasses now user req fails store).createCalls = 0 := by
  have hvalid : (!(validateSchedulingRequest now req).valid) = false := by
    rw [hval]; rfl
  have hne : (conflictsFor (generateDateRange s e (req.excludeDays.getD [0]))
      req.batches store).isEmpty = false := by
    rw [List.isEmpty_eq_false]
    exact hconf
  simp [scheduleClasses, hvalid, hs, he, hskip, hne]

/-- Witness for C5 at a store holding one conflicting scheduled session. -/
theorem claim5_witness :
    (scheduleClasses 0 "system" claim5req (fun _ => false) claim5store).success = false ∧
    (scheduleClasses 0 "system" claim5req (fun _ => false) claim5store).isValidationError = true ∧
    (scheduleClasses 0 "system" claim5req (fun _ => false) claim5store).conflicts =
      conflictsFor (generateDateRange 1 1 (claim5req.excludeDays.getD [0]))
        claim5req.batches claim5store ∧
    (scheduleClasses 0 "system" claim5req (fun _ => false) claim5store).store = claim5store ∧
    (scheduleClasses 0 "system" claim5req (fun _ => false) claim5store).createCalls = 0 :=
  claim5_conflicts_block 0 "system" claim5req (fun _ => false) claim5store 1 1
    (by decide) rfl rfl rfl (by decide)

theorem runCreates_subset (user notes : String) (f : Nat → Bool) :
    ∀ (items : List (Nat × String)) (idx : Nat) (t : Session),
      t ∈ (runCreates user notes f items idx).1 →
      ∃ d b, (d, b) ∈ items ∧ t = mkSession d b user notes := by
  intro items
  induction items with
  | nil => intro idx t ht; simp [runCreates] at ht
  | cons hd tl ih =>
    rcases hd with ⟨d, b⟩
    intro idx t ht
    simp only [runCreates] at ht
    by_cases hf : f idx
    · rw [if_pos hf] at ht
      obtain ⟨d', b', hm, rfl⟩ := ih (idx + 1) t ht
      exact ⟨d', b', List.mem_cons_of_mem _ hm, rfl⟩
    · rw [if_neg hf] at ht
      rcases List.mem_cons.1 ht with rfl | ht'
      · exact ⟨d, b, List.mem_cons_self _ _, rfl⟩
      · obtain ⟨d', b', hm, rfl⟩ := ih (idx + 1) t ht'
        exact ⟨d', b', List.mem_cons_of_mem _ hm, rfl⟩

theorem runCreates_all_ok (user notes : String) :
    ∀ (items : List (Nat × String)) (idx : Nat),
      runCreates user notes (fun _ => false) items idx =
        (items.map (fun p => mkSession p.1 p.2 user notes), 0) := by
  intro items
  induction items with
  | nil => intro idx; rfl
  | cons hd tl ih =>
    intro idx
    rcases hd with ⟨d, b⟩
    simp [runCreates, ih (idx + 1)]

/-- C9: a schedule request that omits `excludeDays` defaults the exclusions
to `[0]` (Sunday), so no created session ever falls on a Sunday; an
explicitly supplied `excludeDays` list (including `[]`) replaces this
default, the work items then ranging over exactly the `excludeDays`-filtered
date range. -/
theorem claim9_default_sunday :
    (∀ (now : Nat) (user : String) (req : SchedulingRequest)
        (fails : Nat → Bool) (store : List Session),
      req.excludeDays = none →
      ∀ t ∈ (scheduleClasses now user req fails store).created,
        dayOfWeek t.date ≠ 0) ∧
    (∀ (now : Nat) (user : String) (req : SchedulingRequest)
        (store : List Session) (s e : Nat) (l : List Nat),
      req.excludeDays = some l →
      req.startDate = some s → req.endDate = some e →
      (validateSchedulingRequest now req).valid = true →
      req.skipConflicts = true →
      (scheduleClasses now user req (fun _ => false) store).created =
        (workItems (generateDateRange s e l) req.batches).map
          (fun p => mkSession p.1 p.2 user req.notes)) := by
  constructor
  · intro now user req fails store hnone t ht
    simp only [scheduleClasses] at ht
    by_cases hval : (validateSchedulingRequest now req).valid
    · rw [if_neg (by simp [hval])] at ht
      rcases hsd : req.startDate with _ | s
      · rw [hsd] at ht; simp at ht
      rcases hed : req.endDate with _ | e
      · rw [hsd, hed] at ht; simp at ht
      rw [hsd, hed] at ht
      simp only [hnone, Option.getD_none, Option.getD_some] at ht
      by_cases hcs : (if req.skipConflicts then []
          else conflictsFor (generateDateRange s e [0]) req.batches store).isEmpty
      · rw [if_neg (by simp [hcs])] at ht
        obtain ⟨d, b, hm, rfl⟩ := runCreates_subset user req.notes fails _ 0 t ht
        have hd : d ∈ generateDateRange s e [0] :=
          ((mem_workItems _ _ _ _).1 hm).1
        have hnc := ((mem_generateDateRange s e [0] d).1 hd).2.2
        intro hzero
        have hzero' : dayOfWeek d = 0 := by simpa [mkSession] using hzero
        exact hnc (by simp [hzero'])
      · rw [if_pos (by simpa using hcs)] at ht
        simp at ht
    · rw [if_pos (by simp [hval])] at ht
      simp at ht
  · intro now user req store s e l hsome hs he hval hskip
    simp [scheduleClasses, hval, hs, he, hsome, hskip, runCreates_all_ok]

/-- Witness for C9: a concrete created session is not on a Sunday, and the
explicit empty exclusion list yields the unfiltered expansion (which
includes Sunday day 3). -/
theorem claim9_witness :
    dayOfWeek (mkSession 1 "morning" "system" "").date ≠ 0 ∧
    ((scheduleClasses 0 "system" claim9reqE (fun _ => false) []).created =
      (workItems (generateDateRange 3 4 []) ["morning"]).map
        (fun p => mkSession p.1 p.2 "system" "")) := by
  have h := claim9_default_sunday
  refine ⟨?_, h.2 0 "system" claim9reqE [] 3 4 [] rfl rfl rfl (by decide) rfl⟩
  exact h.1 0 "system" claim9req (fun _ => false) [] rfl
    (mkSession 1 "morning" "system" "") (by decide)

theorem runCancels_no_match (user reason : String) (fails : Nat → Bool) :
    ∀ (items : List (Nat × String)) (idx : Nat) (store : List Session),
      (∀ d b, (d, b) ∈ items →
        store.filter (isScheduledMatch d (batchNameOf b)) = []) →
      (runCancels user reason fails items idx store).1 = 0 ∧
      (runCancels user reason fails items idx store).2.2 = store := by
  intro items
  induction items with
  | nil => intro idx store _; exact ⟨rfl, rfl⟩
  | cons hd tl ih =>
    rcases hd with ⟨d, b⟩
    intro idx store h
    simp only [runCancels]
    by_cases hf : fails idx
    · rw [if_pos hf]
      exact ih (idx + 1) store fun d' b' hm => h d' b' (List.mem_cons_of_mem _ hm)
    · rw [if_neg hf]
      rw [h d b (List.mem_cons_self _ _)]
      simp only [cancelMatches]
      have hih := ih (idx + 1) store fun d' b' hm =>
        h d' b' (List.mem_cons_of_mem _ hm)
      exact ⟨by rw [hih.1], hih.2⟩

/-- C7: a cancel request (passing validation) over a range containing no
`scheduled` session matching any (date, batch) pair returns a success
envelope with `cancelled = 0` — and leaves the store untouched. -/
theorem claim7_cancel_none (now : Nat) (user : String)
    (req : SchedulingRequest) (fails : Nat → Bool) (store : List Session)
    (s e : Nat)
    (hs : req.startDate = some s) (he : req.endDate = some e)
    (hval : (validateSchedulingRequest now { req with action := "cancel" }).valid = true)
    (hnone : ∀ t ∈ store, ¬(t.status = "scheduled" ∧ s ≤ t.date ∧ t.date ≤ e ∧
        t.batchName ∈ req.batches.map batchNameOf)) :
    (cancelClasses now user req fails store).success = true ∧
    (cancelClasses now user req fails store).cancelled = 0 ∧
    (cancelClasses now user req fails store).store = store := by
  have hfilter : ∀ d b, (d, b) ∈ workItems (cancelDates req) req.batches →
      store.filter (isScheduledMatch d (batchNameOf b)) = [] := by
    intro d b hm
    obtain ⟨hd, hb⟩ := (mem_workItems _ _ _ _).1 hm
    rw [cancelDates, hs, he] at hd
    obtain ⟨h1, h2, _⟩ := (mem_generateDateRange s e [] d).1 hd
    refine List.filter_eq_nil_iff.2 fun t htm => ?_
    intro hmatch
    simp only [isScheduledMatch, Bool.and_eq_true, beq_iff_eq] at hmatch
    exact hnone t htm ⟨hmatch.2, hmatch.1.1 ▸ h1, hmatch.1.1 ▸ h2,
      List.mem_map.2 ⟨b, hb, hmatch.1.2.symm⟩⟩
  have hrun := runCancels_no_match user req.reason fails
    (workItems (cancelDates req) req.batches) 0 store hfilter
  simp [cancelClasses, hval, hrun.1, hrun.2]

/-- Witness for C7 at the concrete no-match store. -/
theorem claim7_witness :
    (cancelClasses 0 "system" claim7req (fun _ => false) claim7store).success = true ∧
    (cancelClasses 0 "system" claim7req (fun _ => false) claim7store).cancelled = 0 ∧
    (cancelClasses 0 "system" claim7req (fun _ => false) claim7store).store = claim7store :=
  claim7_cancel_none 0 "system" claim7req (fun _ => false) claim7store 1 2
    rfl rfl (by decide) (by decide)

/-- C10: `cancelClasses` never reads `excludeDays` — two cancel requests
differing only in that field behave identically — and its expansion covers
every calendar day of the inclusive range, so every (day, batch) pair with a
requested batch is attempted. -/
theorem claim10_cancel_ignores_excludes :
    (∀ (now : Nat) (user : String) (req : SchedulingRequest)
        (fails : Nat → Bool) (store : List Session)
        (x y : Option (List Nat)),
      cancelClasses now user { req with excludeDays := x } fails store =
      cancelClasses now user { req with excludeDays := y } fails store) ∧
    (∀ (req : SchedulingRequest) (s e d : Nat) (b : String),
      req.startDate = some s → req.endDate = some e →
      s ≤ d → d ≤ e → b ∈ req.batches →
      (d, b) ∈ workItems (cancelDates req) req.batches) := by
  constructor
  · intro now user req fails store x y
    cases req
    rfl
  · intro req s e d b hs he h1 h2 hb
    refine (mem_workItems _ _ _ _).2 ⟨?_, hb⟩
    rw [cancelDates, hs, he]
    exact (mem_generateDateRange s e [] d).2 ⟨h1, h2, by simp⟩

/-- Witness for C10: concrete equal results for two exclusion lists, and a
concrete covered pair. -/
theorem claim10_witness :
    cancelClasses 0 "u" { claim10req with excludeDays := some [0, 6] }
        (fun _ => false) [] =
      cancelClasses 0 "u" { claim10req with excludeDays := none }
        (fun _ => false) [] ∧
    (5, "morning") ∈ workItems (cancelDates claim10req) claim10req.batches := by
  have h := claim10_cancel_ignores_excludes
  exact ⟨h.1 0 "u" claim10req (fun _ => false) [] (some [0, 6]) none,
    h.2 claim10req 4 6 5 "morning" rfl rfl (by decide) (by decide) (by decide)⟩

end SportsClub
